import Mathlib

/-!
FaceDetectionService: the HTTP request-serving layer.

A shallow embedding of `src/FaceDetectionService/main.cpp`:

* the containment check of the static `GET` handler (`main.cpp` 59-63),
* the static `GET` handler itself (`main.cpp` 54-89),
* the chunked streamer `readAndSendData` (`main.cpp` 148-165),
* the `/getResult` handler (`main.cpp` 91-132) with `processJsonParam`,
  `processImageParam`, `detectAndGetCoords` and `detectAndSave`.

Library calls (Boost.Filesystem, Boost.PropertyTree's `write_json`, OpenCV, the
socket) are parameters of the model; every effect the handlers perform on them is
recorded, in program order, in a list of events. The JSON writer of
Boost.PropertyTree is also given as a definition, `boost_json.write_json`, so that
the text of a `?type=json` response can be computed from the tree.
-/

namespace FaceDetectionService

/-! ## Paths and the containment check -/

/-- A `boost::filesystem::path`, seen as the sequence of components its iterators
run over (`begin()` .. `end()`). -/
abbrev Path := List String

/-- The three-iterator `std::equal(first1, last1, first2)`: walks the first range and
compares it with the second one position by position, stopping at the first
mismatch. `none` stands for the undefined behaviour of running past the end of the
second range. -/
def std_equal : List String → List String → Option Bool
  | [], _ => some true
  | _ :: _, [] => none
  | a :: as, b :: bs => if a = b then std_equal as bs else some false

/-- Outcome of the containment check of the static handler. -/
inductive Containment where
  | within
  | outsideRoot
  | undefined
  deriving DecidableEq, Repr

/-- The condition of `main.cpp` 59-63:
`distance(root) > distance(path) || !std::equal(root.begin(), root.end(), path.begin())`
throws `"path must be within root path"`. The `||` short-circuits, so `std::equal`
only runs when the root is not longer than the path. -/
def containmentCheck (web_root_path path : Path) : Containment :=
  if web_root_path.length > path.length then Containment.outsideRoot
  else
    match std_equal web_root_path path with
    | some true => Containment.within
    | some false => Containment.outsideRoot
    | none => Containment.undefined

/-! ## Events -/

/-- Status code used by the `catch` of the static handler
(`SimpleWeb::StatusCode::client_error_bad_request`). -/
def client_error_bad_request : Nat := 400

/-- Effects of the static handler and of `readAndSendData`, in program order. -/
inductive Event where
  /-- The call `ifs->open(path.string(), ...)` on this path. -/
  | openFile (path : Path)
  /-- The call `response->write(header)` with the `Content-Length` value. -/
  | writeHeader (contentLength : Nat)
  /-- The call `ifs->read(&buffer[0], buffer.size())`, with the `gcount()` it gave. -/
  | read (read_length : Nat)
  /-- The call `response->write(&buffer[0], read_length)` with the bytes written. -/
  | write (chunk : List Nat)
  /-- The call `response->send(callback)`. -/
  | send
  /-- A line on `cerr`. -/
  | cerr (msg : String)
  /-- The call `response->write(status, body)` of the `catch` block. -/
  | writeStatus (status : Nat) (body : String)
  deriving DecidableEq, Repr

/-! ## `readAndSendData` -/

/-- Size of the static buffer of `readAndSendData` (`vector<char> buffer(131072)`). -/
def bufferSize : Nat := 131072

/-- The function `readAndSendData` of `main.cpp` 148-165, for a buffer of `size` bytes.

`ifs` is the unread rest of the file (the stream position is the start of the list),
`ec n` tells whether the completion handler of the `n`-th `send` (counted from 0)
receives an error code, `sendNo` is the number of sends issued so far.

One call reads up to `size` bytes; if it got any it writes them; if it got a full
buffer it sends, and the completion handler calls `readAndSendData` again when there
is no error and logs otherwise. -/
def readAndSendData (size : Nat) (ec : Nat → Bool) (sendNo : Nat) (ifs : List Nat) :
    List Event :=
  let read_length := (ifs.take size).length
  Event.read read_length ::
    (if hpos : read_length > 0 then
      Event.write (ifs.take size) ::
        (if hfull : read_length = size then
          Event.send ::
            (if ec sendNo then [Event.cerr "Connection interrupted"]
             else
              have : (ifs.drop size).length < ifs.length := by
                simp only [read_length, List.length_take, List.length_drop] at *
                omega
              readAndSendData size ec (sendNo + 1) (ifs.drop size))
        else [])
    else [])
termination_by ifs.length

/-- The chunks handed to `response->write`, in order. -/
def writes : List Event → List (List Nat)
  | [] => []
  | Event.write chunk :: es => chunk :: writes es
  | _ :: es => writes es

/-- Number of `ifs->read` calls. -/
def readCount : List Event → Nat
  | [] => 0
  | Event.read _ :: es => readCount es + 1
  | _ :: es => readCount es

/-- Number of `response->send` calls. -/
def sendCount : List Event → Nat
  | [] => 0
  | Event.send :: es => sendCount es + 1
  | _ :: es => sendCount es

/-- Paths on which `ifs->open` was called. -/
def opened : List Event → List Path
  | [] => []
  | Event.openFile p :: es => p :: opened es
  | _ :: es => opened es

/-! ## The static `GET` handler -/

/-- What the handlers read of a `HttpServer::Request`: its `path` and the result of
`parse_query_string()`, a `CaseInsensitiveMultimap` seen as its list of
(name, value) entries. -/
structure Request where
  path : String
  parse_query_string : List (String × String)

/-- The Boost.Filesystem and `ifstream` calls of the static handler. A failing
`canonical` throws; `Except.error` carries the `what()` of the exception. -/
structure FileSystem where
  /-- Result of `boost::filesystem::canonical("web")`. -/
  canonicalRoot : Except String Path
  /-- Result of `boost::filesystem::canonical(web_root_path / request->path)`. -/
  canonicalJoin : Path → String → Except String Path
  /-- Result of `boost::filesystem::is_directory(path)`. -/
  is_directory : Path → Bool
  /-- Bytes of the file `ifs->open(path.string(), ...)` succeeds on, `none` when the
  stream is in a failed state after the `open`. -/
  contents : Path → Option (List Nat)

/-- The `catch` block of the static handler (`main.cpp` 86-88). -/
def badRequest (request : Request) (what : String) : Event :=
  Event.writeStatus client_error_bad_request
    ("Could not open path " ++ request.path ++ ": " ++ what)

/-- The handler `server.default_resource["GET"]` of `main.cpp` 54-89. The result is the
list of its effects; `none` stands for undefined behaviour inside the containment
check. -/
def default_resource_GET (fs : FileSystem) (ec : Nat → Bool) (request : Request) :
    Option (List Event) :=
  match fs.canonicalRoot with
  | Except.error what => some [badRequest request what]
  | Except.ok web_root_path =>
    match fs.canonicalJoin web_root_path request.path with
    | Except.error what => some [badRequest request what]
    | Except.ok path =>
      match containmentCheck web_root_path path with
      | Containment.undefined => none
      | Containment.outsideRoot => some [badRequest request "path must be within root path"]
      | Containment.within =>
        let path := if fs.is_directory path then path ++ ["index.html"] else path
        match fs.contents path with
        | none => some [Event.openFile path, badRequest request "could not read file"]
        | some bytes =>
          some (Event.openFile path :: Event.writeHeader bytes.length ::
            readAndSendData bufferSize ec 0 bytes)

/-! ## Property trees -/

/-- Modelled from the spec: the sources use `boost::property_tree::ptree` without
declaring it. A tree is a data string and an ordered list of (key, subtree)
children: an object is a node whose children carry the member names, an array a
node whose children all have the empty key (section 4.4 of the specification). -/
inductive ptree where
  | node (data : String) (children : List (String × ptree))

namespace ptree

/-- The default-constructed tree `ptree pt;`. -/
def empty : ptree := node "" []

/-- The data string of a tree. -/
def data : ptree → String
  | node d _ => d

/-- The children of a tree, in insertion order. -/
def children : ptree → List (String × ptree)
  | node _ cs => cs

/-- Set the data of the first child named `key`, if there is one. -/
def putValueAt (key value : String) : List (String × ptree) → Option (List (String × ptree))
  | [] => none
  | (k, node d cs) :: rest =>
    if k = key then some ((k, node value cs) :: rest)
    else (putValueAt key value rest).map (fun rest' => (k, node d cs) :: rest')

/-- Modelled from the spec: `pt.put(key, value)` for a key of one segment. The value
of the child named `key` becomes `value`; the child is appended when the tree has
none of that name. -/
def put (pt : ptree) (key value : String) : ptree :=
  match pt with
  | node d cs =>
    match putValueAt key value cs with
    | some cs' => node d cs'
    | none => node d (cs ++ [(key, node value [])])

/-- Modelled from the spec: `pt.push_back(std::make_pair(key, child))` appends the
child after the existing ones. -/
def push_back (pt : ptree) (entry : String × ptree) : ptree :=
  match pt with
  | node d cs => node d (cs ++ [entry])

/-- Modelled from the spec: `pt.add_child(key, child)` for a key of one segment adds
a new child after the existing ones, also when one of that name exists. -/
def add_child (pt : ptree) (key : String) (child : ptree) : ptree :=
  match pt with
  | node d cs => node d (cs ++ [(key, child)])

end ptree

/-! ## The JSON writer of Boost.PropertyTree -/

namespace boost_json

/-- The digits `create_escapes` uses for a `\u` escape. -/
def hexdigits : List Char := "0123456789ABCDEF".data

/-- What `create_escapes` of Boost.PropertyTree (library code outside the sources)
appends for one character: the character itself when it is printable and is neither
the quote, the slash nor the backslash, a two-character escape for backspace, form
feed, newline, carriage return, tab, slash, quote and backslash, and a `\u` escape
with four hexadecimal digits otherwise. Characters are given by their code. -/
def create_escapes_char (c : Char) : List Char :=
  let n := c.toNat
  if n = 0x20 ∨ n = 0x21 ∨ (0x23 ≤ n ∧ n ≤ 0x2E) ∨ (0x30 ≤ n ∧ n ≤ 0x5B) ∨
      (0x5D ≤ n ∧ n ≤ 0xFF) then [c]
  else if n = 8 then [Char.ofNat 92, Char.ofNat 98]
  else if n = 12 then [Char.ofNat 92, Char.ofNat 102]
  else if n = 10 then [Char.ofNat 92, Char.ofNat 110]
  else if n = 13 then [Char.ofNat 92, Char.ofNat 114]
  else if n = 9 then [Char.ofNat 92, Char.ofNat 116]
  else if n = 47 then [Char.ofNat 92, Char.ofNat 47]
  else if n = 34 then [Char.ofNat 92, Char.ofNat 34]
  else if n = 92 then [Char.ofNat 92, Char.ofNat 92]
  else
    let u := min n 0xFFFF
    [Char.ofNat 92, Char.ofNat 117, hexdigits.getD (u / 4096) (Char.ofNat 48),
      hexdigits.getD (u % 4096 / 256) (Char.ofNat 48),
      hexdigits.getD (u % 256 / 16) (Char.ofNat 48), hexdigits.getD (u % 16) (Char.ofNat 48)]

/-- The function `create_escapes` of Boost.PropertyTree: the escapes of the
characters of `s`, in order. -/
def create_escapes (s : String) : String :=
  String.mk (s.data.flatMap create_escapes_char)

/-- A run of `n` blanks, the indentation of the pretty printer. -/
def spaces (n : Nat) : String := String.mk (List.replicate n (Char.ofNat 32))

mutual

/-- The function `write_json_helper` of Boost.PropertyTree with `pretty` set. Below
the top level a node without children is written as a value, its data between
quotes; a node whose children all have the empty key is written as an array;
every other node, and the top-level node, is written as an object. -/
def write_json_helper (indent : Nat) : ptree → String
  | ptree.node data children =>
    if indent > 0 ∧ children.isEmpty then
      "\"" ++ create_escapes data ++ "\""
    else if indent > 0 ∧
        (children.filter (fun entry => entry.1 = "")).length = children.length then
      "[" ++ "\n" ++ write_json_array indent children ++ spaces (4 * indent) ++ "]"
    else
      "\x7b" ++ "\n" ++ write_json_object indent children ++ spaces (4 * indent) ++ "\x7d"

/-- The loop of the array case: each element on a line of its own, indented, with a
comma after all but the last. -/
def write_json_array (indent : Nat) : List (String × ptree) → String
  | [] => ""
  | entry :: rest =>
    spaces (4 * (indent + 1)) ++ write_json_helper (indent + 1) entry.2 ++
      (if rest.isEmpty then "" else ",") ++ "\n" ++ write_json_array indent rest

/-- The loop of the object case: each member on a line of its own, indented, as its
quoted name, a colon, a blank and its value, with a comma after all but the last. -/
def write_json_object (indent : Nat) : List (String × ptree) → String
  | [] => ""
  | entry :: rest =>
    spaces (4 * (indent + 1)) ++ "\"" ++ create_escapes entry.1 ++ "\"" ++ ":" ++ " " ++
      write_json_helper (indent + 1) entry.2 ++
      (if rest.isEmpty then "" else ",") ++ "\n" ++ write_json_object indent rest

end

/-- The text `json_parser::write_json(oss, pt)` of Boost.PropertyTree writes
(`main.cpp` 210, pretty printing by default) for a tree it accepts, such as the
trees `detectAndGetCoords` builds, whose only nodes with data have no children: the
top-level node as an object, followed by a newline. -/
def write_json (pt : ptree) : String := write_json_helper 0 pt ++ "\n"

end boost_json

/-! ## Detection -/

/-- A `cv::Rect`; the constructor takes `x, y, width, height` in this order. -/
structure Rect where
  x : Int
  y : Int
  width : Int
  height : Int
  deriving DecidableEq, Repr

/-- Calls on the detection collaborators, in program order. -/
inductive Call where
  /-- The call `gFaceCascade.load(file)`. -/
  | load (file : String)
  /-- The construction `VideoCapture(index)`. -/
  | videoCapture (index : Nat)
  /-- The call `capture.read(image)`. -/
  | captureRead
  /-- The call `gFaceCascade.detectMultiScale(imageGray, faces)`. -/
  | detectMultiScale
  /-- The call `rectangle(image, faceRect, Scalar(255, 0, 255))` with the `faceRect` passed. -/
  | rectangle (faceRect : Rect)
  /-- The call `imwrite(file, image)`. -/
  | imwrite (file : String)
  deriving DecidableEq, Repr

/-- The library calls of the `/getResult` handler: the key equality of the
`CaseInsensitiveMultimap`, OpenCV, and `json_parser::write_json`. -/
structure Collaborators (Mat : Type) where
  /-- Key equality of the multimap (stored key, searched key). -/
  key_eq : String → String → Bool
  /-- Whether `gFaceCascade.load(file)` succeeds. -/
  load : String → Bool
  /-- Value of `capture.isOpened()` for `VideoCapture(0)`. -/
  isOpened : Bool
  /-- The frame `capture.read(image)` yields, `none` when it returns false. -/
  read : Option Mat
  /-- The conversion `cvtColor(image, imageGray, COLOR_BGR2GRAY)`. -/
  cvtColor : Mat → Mat
  /-- The equalisation `equalizeHist(imageGray, imageGray)`. -/
  equalizeHist : Mat → Mat
  /-- The rectangles `gFaceCascade.detectMultiScale` stores in `faces`. -/
  detectMultiScale : Mat → List Rect
  /-- The image after `rectangle(image, faceRect, Scalar(255, 0, 255))`. -/
  rectangle : Mat → Rect → Mat
  /-- Whether `imwrite(file, image)` succeeds. -/
  imwrite : String → Mat → Bool
  /-- The text `json_parser::write_json(oss, pt)` writes. -/
  write_json : ptree → String

/-- The body of the loop of `detectAndGetCoords` (`main.cpp` 200-204): a fresh tree
that receives `x`, `y`, `width`, `height`. -/
def jsonFace (face : Rect) : ptree :=
  (((ptree.empty.put "x" (toString face.x)).put "y" (toString face.y)).put
    "width" (toString face.width)).put "height" (toString face.height)

/-- The tree `pt` that `detectAndGetCoords` builds from the detected `faces`
(`main.cpp` 197-207). -/
def facesTree (faces : List Rect) : ptree :=
  let facesJson := faces.foldl
    (fun (facesJson : ptree) (face : Rect) => facesJson.push_back ("", jsonFace face))
    ptree.empty
  ptree.empty.add_child "faces" facesJson

/-- The function `detectAndGetCoords` of `main.cpp` 188-213: the serialised tree and
the collaborator calls made. -/
def detectAndGetCoords {Mat : Type} (c : Collaborators Mat) (image : Mat) :
    String × List Call :=
  let imageGray := c.equalizeHist (c.cvtColor image)
  let faces := c.detectMultiScale imageGray
  (c.write_json (facesTree faces), [Call.detectMultiScale])

/-- The loop of `detectAndSave` (`main.cpp` 177-180): for each face, in order, build
`Rect faceRect(faces[i].x, faces[i].width, faces[i].y, faces[i].height)` and draw it. -/
def drawFaces {Mat : Type} (c : Collaborators Mat) (image : Mat) (faces : List Rect) :
    Mat × List Call :=
  faces.foldl
    (fun (acc : Mat × List Call) (face : Rect) =>
      let faceRect := Rect.mk face.x face.width face.y face.height
      (c.rectangle acc.1 faceRect, acc.2 ++ [Call.rectangle faceRect]))
    (image, [])

/-- The function `detectAndSave` of `main.cpp` 168-185: `Except.error` carries the
`what()` of the exception thrown when the image cannot be saved. -/
def detectAndSave {Mat : Type} (c : Collaborators Mat) (image : Mat) :
    Except String Unit × List Call :=
  let imageGray := c.equalizeHist (c.cvtColor image)
  let faces := c.detectMultiScale imageGray
  let drawn := drawFaces c image faces
  let calls := Call.detectMultiScale :: drawn.2 ++ [Call.imwrite "web\\image.jpg"]
  if c.imwrite "web\\image.jpg" drawn.1 then (Except.ok (), calls)
  else (Except.error "Cannot save image", calls)

/-- The rectangles passed to `rectangle`, in order. -/
def drawnRects : List Call → List Rect
  | [] => []
  | Call.rectangle r :: cs => r :: drawnRects cs
  | _ :: cs => drawnRects cs

/-- The function `processImageParam` of `main.cpp` 216-237. `Except.ok` is the content
of `stream` on return, `Except.error` the `what()` of an exception that leaves the
function (`stream` is untouched in that case). -/
def processImageParam {Mat : Type} (c : Collaborators Mat) (stream : String) :
    Except String String × List Call :=
  if !c.isOpened then (Except.error "Cannot open camera", [Call.videoCapture 0])
  else
    match c.read with
    | none => (Except.error "Cannot read image from camera",
        [Call.videoCapture 0, Call.captureRead])
    | some image =>
      let saved := detectAndSave c image
      let calls := Call.videoCapture 0 :: Call.captureRead :: saved.2
      match saved.1 with
      | Except.error what => (Except.ok (stream ++ what), calls)
      | Except.ok () => (Except.ok (stream ++ "<img src=\"image.jpg\">"), calls)

/-- The function `processJsonParam` of `main.cpp` 240-261, with the conventions of
`processImageParam`. -/
def processJsonParam {Mat : Type} (c : Collaborators Mat) (stream : String) :
    Except String String × List Call :=
  if !c.isOpened then (Except.error "Cannot open camera", [Call.videoCapture 0])
  else
    match c.read with
    | none => (Except.error "Cannot read image from camera",
        [Call.videoCapture 0, Call.captureRead])
    | some image =>
      let coords := detectAndGetCoords c image
      (Except.ok (stream ++ coords.1), Call.videoCapture 0 :: Call.captureRead :: coords.2)

/-! ## The `/getResult` handler -/

/-- The lookup `getParams.find(key)`: an entry whose name equals `key`, `none` for the
`end()` iterator. -/
def find (key_eq : String → String → Bool) (getParams : List (String × String))
    (key : String) : Option (String × String) :=
  getParams.find? (fun entry => key_eq entry.1 key)

/-- What a `/getResult` request leaves behind: the body passed to `response->write`,
the collaborator calls, and whether `gFaceCascade` is still empty. -/
structure Result where
  body : String
  calls : List Call
  cascadeEmpty : Bool
  deriving DecidableEq, Repr

/-- The catch blocks of the handler (`main.cpp` 112-125): an exception leaving the
strategy is appended to the stream as its `what()`. -/
def caught (stream : String) (outcome : Except String String) : String :=
  match outcome with
  | Except.ok stream' => stream'
  | Except.error what => stream ++ what

/-- The handler `server.resource["^/getResult$"]["GET"]` of `main.cpp` 91-132, started
with `gFaceCascade.empty()` equal to `cascadeEmpty`. `none` stands for the undefined
behaviour of dereferencing the `end()` iterator in line 110. -/
def getResult_GET {Mat : Type} (c : Collaborators Mat) (cascadeEmpty : Bool)
    (request : Request) : Option Result :=
  let stream := "<h1>Face Detection Service</h1>"
  let getParams := request.parse_query_string
  if getParams.length ≠ 1 then
    some ⟨stream ++ "<p>Wrong parameter</p>" ++ "<p>Usage: ?type=\x7b json | image \x7d</p>",
      [], cascadeEmpty⟩
  else if cascadeEmpty && !c.load "haarcascade_frontalface_default.xml" then
    some ⟨stream ++ "<p>Error loading face cascade</p>",
      [Call.load "haarcascade_frontalface_default.xml"], true⟩
  else
    let loads := if cascadeEmpty then [Call.load "haarcascade_frontalface_default.xml"] else []
    match find c.key_eq getParams "type" with
    | none => none
    | some entry =>
      let value := entry.2
      if value = "json" then
        let r := processJsonParam c stream
        some ⟨caught stream r.1, loads ++ r.2, false⟩
      else if value = "image" then
        let r := processImageParam c stream
        some ⟨caught stream r.1, loads ++ r.2, false⟩
      else
        some ⟨stream ++ "<p>Wrong value: " ++ value ++ "</p>", loads, false⟩

/-- The text `sub` occurs in `body`. -/
def containsText (body sub : String) : Prop := sub.data <:+: body.data

instance (body sub : String) : Decidable (containsText body sub) :=
  inferInstanceAs (Decidable (sub.data <:+: body.data))

/-- A detection collaborator was invoked: the classifier was loaded, the camera was
opened or read, or the detector ran. -/
def invokesCollaborator (calls : List Call) : Prop := calls ≠ []

instance (calls : List Call) : Decidable (invokesCollaborator calls) :=
  inferInstanceAs (Decidable (calls ≠ []))

/-- The writes of an uninterrupted stream, described together: their number, the
size of all but the last, the size of the last, their concatenation and their
total size. -/
def StreamsWhole (size : Nat) (file : List Nat) (ws : List (List Nat)) : Prop :=
  ws.length = (file.length + size - 1) / size ∧
  (∀ w ∈ ws.dropLast, w.length = size) ∧
  (0 < file.length →
    ws.getLast?.map List.length =
      some (if file.length % size = 0 then size else file.length % size)) ∧
  ws.flatten = file ∧
  (ws.map List.length).sum = file.length

/-! ## Sample collaborators -/

/-- A file system whose web root is `/srv/web`, in which every request resolves to
the root itself, a directory whose `index.html` holds two bytes. -/
def rootOnlyFs : FileSystem where
  canonicalRoot := Except.ok ["/", "srv", "web"]
  canonicalJoin := fun _ _ => Except.ok ["/", "srv", "web"]
  is_directory := fun p => p == ["/", "srv", "web"]
  contents := fun p => if p = ["/", "srv", "web", "index.html"] then some [104, 105] else none

/-- A file system in which every request resolves to `/srv/web-evil/x`. -/
def escapingFs : FileSystem where
  canonicalRoot := Except.ok ["/", "srv", "web"]
  canonicalJoin := fun _ _ => Except.ok ["/", "srv", "web-evil", "x"]
  is_directory := fun _ => false
  contents := fun _ => some [1, 2, 3]

/-- Collaborators over one-valued images: exact key comparison, a working camera,
a detector that returns `faces`, `loadOk` as the result of loading the cascade, and
a serialiser that writes `json` for every tree. -/
def sampleCollaborators (loadOk : Bool) (faces : List Rect) (json : String) :
    Collaborators Unit where
  key_eq := fun a b => a == b
  load := fun _ => loadOk
  isOpened := true
  read := some ()
  cvtColor := fun m => m
  equalizeHist := fun m => m
  detectMultiScale := fun _ => faces
  rectangle := fun m _ => m
  imwrite := fun _ _ => true
  write_json := fun _ => json

/-- Collaborators like `sampleCollaborators` with a cascade that loads, whose
serialiser is the function `w`. -/
def serialisingCollaborators (faces : List Rect) (w : ptree → String) :
    Collaborators Unit where
  key_eq := fun a b => a == b
  load := fun _ => true
  isOpened := true
  read := some ()
  cvtColor := fun m => m
  equalizeHist := fun m => m
  detectMultiScale := fun _ => faces
  rectangle := fun m _ => m
  imwrite := fun _ _ => true
  write_json := w

/-! ## Unfolding `readAndSendData` -/

/-- A read that finds nothing (end of file, or an empty buffer) ends the stream. -/
theorem readAndSendData_empty (size : Nat) (ec : Nat → Bool) (sendNo : Nat) (ifs : List Nat)
    (h : (ifs.take size).length = 0) :
    readAndSendData size ec sendNo ifs = [Event.read 0] := by
  rw [readAndSendData]
  simp [h]

/-- A read that fills only part of the buffer is written and ends the stream. -/
theorem readAndSendData_short (size : Nat) (ec : Nat → Bool) (sendNo : Nat) (ifs : List Nat)
    (hpos : 0 < ifs.length) (hlt : ifs.length < size) :
    readAndSendData size ec sendNo ifs = [Event.read ifs.length, Event.write ifs] := by
  have htake : ifs.take size = ifs := List.take_of_length_le (Nat.le_of_lt hlt)
  rw [readAndSendData]
  simp only [htake]
  rw [dif_pos hpos, dif_neg (Nat.ne_of_lt hlt)]

/-- A read that fills the buffer is written and sent; the completion handler
continues with the rest of the file unless it got an error. -/
theorem readAndSendData_full (size : Nat) (ec : Nat → Bool) (sendNo : Nat) (ifs : List Nat)
    (hsize : 0 < size) (hle : size ≤ ifs.length) :
    readAndSendData size ec sendNo ifs =
      Event.read size :: Event.write (ifs.take size) :: Event.send ::
        (if ec sendNo then [Event.cerr "Connection interrupted"]
         else readAndSendData size ec (sendNo + 1) (ifs.drop size)) := by
  have hlen : (ifs.take size).length = size := by
    rw [List.length_take]; omega
  rw [readAndSendData]
  simp only [hlen]
  rw [dif_pos hsize]
  simp

/-- Induction over the writes of an uninterrupted stream: nothing for the empty
file, one short write for a file below the buffer size, and otherwise a full write
followed by the writes of the rest. -/
theorem writes_readAndSendData_induction (size : Nat) (hsize : 0 < size) (ec : Nat → Bool)
    (hec : ∀ n, ec n = false) (P : List Nat → List (List Nat) → Prop)
    (hnil : P [] [])
    (hshort : ∀ f : List Nat, 0 < f.length → f.length < size → P f [f])
    (hfull : ∀ (f : List Nat) (ws : List (List Nat)), size ≤ f.length →
      P (f.drop size) ws → P f (f.take size :: ws)) :
    ∀ (n : Nat) (f : List Nat) (sendNo : Nat), f.length = n →
      P f (writes (readAndSendData size ec sendNo f)) := by
  intro n
  induction n using Nat.strong_induction_on with
  | _ n ih =>
    intro f sendNo hn
    by_cases h0 : f.length = 0
    · have hf : f = [] := List.length_eq_zero.mp h0
      subst hf
      rw [readAndSendData_empty size ec sendNo [] (by simp)]
      simpa [writes] using hnil
    · by_cases hlt : f.length < size
      · rw [readAndSendData_short size ec sendNo f (Nat.pos_of_ne_zero h0) hlt]
        simpa [writes] using hshort f (Nat.pos_of_ne_zero h0) hlt
      · have hle : size ≤ f.length := Nat.le_of_not_lt hlt
        rw [readAndSendData_full size ec sendNo f hsize hle, hec sendNo]
        have hrec := ih (f.drop size).length (by rw [List.length_drop]; omega)
          (f.drop size) (sendNo + 1) rfl
        simpa [writes] using hfull f _ hle hrec

/-! ## The containment check -/

/-- When the root is not longer than the path, `std::equal` stays inside the path
and tells whether the root is a prefix of it. -/
theorem std_equal_of_length_le : ∀ (root path : Path), root.length ≤ path.length →
    std_equal root path = some (decide (root <+: path))
  | [], path, _ => by simp [std_equal]
  | a :: as, [], h => by simp at h
  | a :: as, b :: bs, h => by
    have hlen : as.length ≤ bs.length := by simpa using h
    by_cases hab : a = b
    · simp [std_equal, hab, std_equal_of_length_le as bs hlen, List.cons_prefix_cons]
    · simp [std_equal, hab, List.cons_prefix_cons]

/-- The check accepts exactly the paths that have the root as a prefix. -/
theorem containmentCheck_within_iff (root path : Path) :
    containmentCheck root path = Containment.within ↔ root <+: path := by
  unfold containmentCheck
  by_cases hlen : root.length > path.length
  · have hnot : ¬ root <+: path := fun hp => by
      have := hp.length_le
      omega
    simp [hlen, hnot]
  · rw [if_neg hlen, std_equal_of_length_le root path (Nat.le_of_not_lt hlen)]
    by_cases hp : root <+: path <;> simp [hp]

/-- The check throws exactly on the paths that do not have the root as a prefix. -/
theorem containmentCheck_outsideRoot_iff (root path : Path) :
    containmentCheck root path = Containment.outsideRoot ↔ ¬ root <+: path := by
  unfold containmentCheck
  by_cases hlen : root.length > path.length
  · have hnot : ¬ root <+: path := fun hp => by
      have := hp.length_le
      omega
    simp [hlen, hnot]
  · rw [if_neg hlen, std_equal_of_length_le root path (Nat.le_of_not_lt hlen)]
    by_cases hp : root <+: path <;> simp [hp]

/-- C1: the containment check of the static handler accepts a canonical path if and
only if the root's component sequence is a prefix of the path's, compared component
by component, and throws "path must be within root path" otherwise (it never runs
past the end of the path). A path equal to the root is accepted, and the path
`/root-evil` is rejected for the root `/root`. -/
theorem containmentCheck_componentwise (root path : Path) :
    (containmentCheck root path = Containment.within ↔ root <+: path) ∧
    (containmentCheck root path = Containment.outsideRoot ↔ ¬ root <+: path) ∧
    containmentCheck root root = Containment.within ∧
    containmentCheck ["/", "root"] ["/", "root-evil"] = Containment.outsideRoot :=
  ⟨containmentCheck_within_iff root path, containmentCheck_outsideRoot_iff root path,
    (containmentCheck_within_iff root root).mpr (List.prefix_refl root), by decide⟩

/-! ## The static handler -/

/-- The streamer opens no file. -/
theorem opened_readAndSendData (size : Nat) (ec : Nat → Bool) :
    ∀ (n : Nat) (ifs : List Nat) (sendNo : Nat), ifs.length = n →
      opened (readAndSendData size ec sendNo ifs) = [] := by
  intro n
  induction n using Nat.strong_induction_on with
  | _ n ih =>
    intro ifs sendNo hn
    by_cases h0 : (ifs.take size).length = 0
    · rw [readAndSendData_empty size ec sendNo ifs h0]
      rfl
    · have hsize : 0 < size := by
        rcases Nat.eq_zero_or_pos size with h | h
        · subst h; simp at h0
        · exact h
      have hpos : 0 < ifs.length := by
        rcases Nat.eq_zero_or_pos ifs.length with h | h
        · rw [List.length_eq_zero.mp h] at h0; simp at h0
        · exact h
      by_cases hlt : ifs.length < size
      · rw [readAndSendData_short size ec sendNo ifs hpos hlt]
        rfl
      · have hle : size ≤ ifs.length := Nat.le_of_not_lt hlt
        rw [readAndSendData_full size ec sendNo ifs hsize hle]
        cases hec : ec sendNo
        · have hrec := ih (ifs.drop size).length (by rw [List.length_drop]; omega)
            (ifs.drop size) (sendNo + 1) rfl
          simpa [opened] using hrec
        · simp [opened]

/-- C2, as the code has it: when the canonical join of the web root and the request
path does not have the root's component sequence as a prefix, the static handler
answers with the bad-request status and the text "path must be within root path",
and that is its only effect: no file is opened. -/
theorem default_resource_GET_outsideRoot (fs : FileSystem) (ec : Nat → Bool)
    (request : Request) (web_root_path path : Path)
    (hroot : fs.canonicalRoot = Except.ok web_root_path)
    (hjoin : fs.canonicalJoin web_root_path request.path = Except.ok path)
    (hout : ¬ web_root_path <+: path) :
    default_resource_GET fs ec request =
      some [Event.writeStatus client_error_bad_request
        ("Could not open path " ++ request.path ++ ": " ++ "path must be within root path")] ∧
    (default_resource_GET fs ec request).map opened = some [] := by
  have hcheck := (containmentCheck_outsideRoot_iff web_root_path path).mpr hout
  have h : default_resource_GET fs ec request =
      some [Event.writeStatus client_error_bad_request
        ("Could not open path " ++ request.path ++ ": " ++ "path must be within root path")] := by
    simp [default_resource_GET, hroot, hjoin, hcheck, badRequest]
  exact ⟨h, by rw [h]; rfl⟩

/-- Witness of C2 as the code has it: a request that resolves to `/srv/web-evil/x`
under the root `/srv/web`. -/
theorem default_resource_GET_outsideRoot_witness :
    default_resource_GET escapingFs (fun _ => false) ⟨"/../web-evil/x", []⟩ =
      some [Event.writeStatus client_error_bad_request
        ("Could not open path " ++ "/../web-evil/x" ++ ": " ++ "path must be within root path")] ∧
    (default_resource_GET escapingFs (fun _ => false) ⟨"/../web-evil/x", []⟩).map opened =
      some [] :=
  default_resource_GET_outsideRoot escapingFs (fun _ => false) ⟨"/../web-evil/x", []⟩
    ["/", "srv", "web"] ["/", "srv", "web-evil", "x"] rfl rfl (by decide)

/-- C2 fails as stated: a request whose canonical path equals the root is not a
proper descendant of the root, yet the handler does not throw the outside-root
error; it opens `index.html` under the root and streams it. -/
theorem default_resource_GET_root_is_served :
    rootOnlyFs.canonicalRoot = Except.ok ["/", "srv", "web"] ∧
    rootOnlyFs.canonicalJoin ["/", "srv", "web"] "/" = Except.ok ["/", "srv", "web"] ∧
    default_resource_GET rootOnlyFs (fun _ => false) ⟨"/", []⟩ =
      some [Event.openFile ["/", "srv", "web", "index.html"], Event.writeHeader 2,
        Event.read 2, Event.write [104, 105]] ∧
    (default_resource_GET rootOnlyFs (fun _ => false) ⟨"/", []⟩).map opened =
      some [["/", "srv", "web", "index.html"]] := by
  have hstream : readAndSendData bufferSize (fun _ => false) 0 [104, 105] =
      [Event.read 2, Event.write [104, 105]] :=
    readAndSendData_short bufferSize (fun _ => false) 0 [104, 105] (by decide) (by decide)
  have hcheck : containmentCheck ["/", "srv", "web"] ["/", "srv", "web"] =
      Containment.within := by decide
  have h : default_resource_GET rootOnlyFs (fun _ => false) ⟨"/", []⟩ =
      some [Event.openFile ["/", "srv", "web", "index.html"], Event.writeHeader 2,
        Event.read 2, Event.write [104, 105]] := by
    simp [default_resource_GET, rootOnlyFs, hcheck, hstream]
  exact ⟨rfl, rfl, h, by rw [h]; rfl⟩

/-! ## Streaming -/

/-- The empty file gives no write. -/
theorem streamsWhole_nil (size : Nat) (hsize : 0 < size) : StreamsWhole size [] [] := by
  refine ⟨?_, ?_, ?_, rfl, rfl⟩
  · simp only [List.length_nil, Nat.zero_add]
    exact (Nat.div_eq_of_lt (by omega)).symm
  · intro w hw
    simp at hw
  · intro h
    simp at h

/-- A file shorter than the buffer gives one write, of the whole file. -/
theorem streamsWhole_short (size : Nat) (f : List Nat) (hpos : 0 < f.length)
    (hlt : f.length < size) : StreamsWhole size f [f] := by
  refine ⟨?_, ?_, ?_, by simp, by simp⟩
  · have h1 : f.length + size - 1 = (f.length - 1) + size := by omega
    rw [h1, Nat.add_div_right _ (by omega), Nat.div_eq_of_lt (by omega)]
    rfl
  · intro w hw
    simp at hw
  · intro _
    have hmod : f.length % size = f.length := Nat.mod_eq_of_lt hlt
    have hne : ¬ f.length = 0 := by omega
    simp [hmod, hne]

/-- A full buffer is written first, then the rest of the file is streamed. -/
theorem streamsWhole_full (size : Nat) (hsize : 0 < size) (f : List Nat)
    (ws : List (List Nat)) (hle : size ≤ f.length)
    (ih : StreamsWhole size (f.drop size) ws) :
    StreamsWhole size f (f.take size :: ws) := by
  obtain ⟨hlen, hfront, hlast, hcat, hsum⟩ := ih
  have htake : (f.take size).length = size := by
    rw [List.length_take]; omega
  have hdrop : (f.drop size).length = f.length - size := List.length_drop size f
  rw [hdrop] at hlen hlast hsum
  have hmod : f.length % size = (f.length - size) % size := Nat.mod_eq_sub_mod hle
  refine ⟨?_, ?_, ?_, ?_, ?_⟩
  · have h1 : f.length + size - 1 = (f.length - size + size - 1) + size := by omega
    rw [List.length_cons, hlen, h1, Nat.add_div_right _ hsize]
  · cases ws with
    | nil => intro w hw; simp at hw
    | cons w' ws' =>
      intro w hw
      rw [List.dropLast_cons₂, List.mem_cons] at hw
      rcases hw with h | h
      · rw [h]; exact htake
      · exact hfront w h
  · intro _
    cases ws with
    | nil =>
      have h0 : f.length - size = 0 := by
        by_contra hne
        have hge : size ≤ f.length - size + size - 1 := by omega
        have := Nat.div_pos hge hsize
        simp at hlen
        omega
      have hz : f.length % size = 0 := by rw [hmod, h0]; exact Nat.zero_mod size
      simp [hz, htake]
    | cons w' ws' =>
      have hpos : 0 < f.length - size := by
        by_contra hne
        have h0 : f.length - size = 0 := by omega
        rw [h0, Nat.zero_add, Nat.div_eq_of_lt (by omega)] at hlen
        simp at hlen
      rw [List.getLast?_cons_cons, hlast hpos, hmod]
  · rw [List.flatten_cons, hcat, List.take_append_drop]
  · rw [List.map_cons, List.sum_cons, hsum, htake]
    omega

/-- C3: for a file of N bytes and a buffer of C > 0 bytes, when no send completes
with an error, `readAndSendData` (a total function: it terminates) performs
`ceil(N/C)` body writes; every write but the last has C bytes, the last has
`N mod C` bytes, or C when C divides N; the writes concatenated are the file, and
their sizes add up to N. -/
theorem readAndSendData_streams_whole_file (size : Nat) (hsize : 0 < size)
    (ec : Nat → Bool) (hec : ∀ n, ec n = false) (file : List Nat) :
    (writes (readAndSendData size ec 0 file)).length = (file.length + size - 1) / size ∧
    (∀ w ∈ (writes (readAndSendData size ec 0 file)).dropLast, w.length = size) ∧
    (0 < file.length →
      (writes (readAndSendData size ec 0 file)).getLast?.map List.length =
        some (if file.length % size = 0 then size else file.length % size)) ∧
    (writes (readAndSendData size ec 0 file)).flatten = file ∧
    ((writes (readAndSendData size ec 0 file)).map List.length).sum = file.length :=
  writes_readAndSendData_induction size hsize ec hec (StreamsWhole size)
    (streamsWhole_nil size hsize) (streamsWhole_short size)
    (fun f ws hle ih => streamsWhole_full size hsize f ws hle ih) file.length file 0 rfl

/-- Witness of C3: a file of five bytes streamed through a buffer of two. -/
theorem readAndSendData_streams_whole_file_witness :
    (writes (readAndSendData 2 (fun _ => false) 0 [1, 2, 3, 4, 5])).length =
      ([1, 2, 3, 4, 5].length + 2 - 1) / 2 ∧
    (∀ w ∈ (writes (readAndSendData 2 (fun _ => false) 0 [1, 2, 3, 4, 5])).dropLast,
      w.length = 2) ∧
    (0 < [1, 2, 3, 4, 5].length →
      (writes (readAndSendData 2 (fun _ => false) 0 [1, 2, 3, 4, 5])).getLast?.map
        List.length =
        some (if [1, 2, 3, 4, 5].length % 2 = 0 then 2 else [1, 2, 3, 4, 5].length % 2)) ∧
    (writes (readAndSendData 2 (fun _ => false) 0 [1, 2, 3, 4, 5])).flatten =
      [1, 2, 3, 4, 5] ∧
    ((writes (readAndSendData 2 (fun _ => false) 0 [1, 2, 3, 4, 5])).map
      List.length).sum = [1, 2, 3, 4, 5].length :=
  readAndSendData_streams_whole_file 2 (by decide) (fun _ => false)
    (fun _ => rfl) [1, 2, 3, 4, 5]

/-- Counts of a stream whose `k`-th send, counted from `sendNo`, fails. -/
theorem readAndSendData_failed_send (size : Nat) (ec : Nat → Bool) :
    ∀ (k : Nat) (ifs : List Nat) (sendNo : Nat),
      k + 1 ≤ sendCount (readAndSendData size ec sendNo ifs) →
      ec (sendNo + k) = true →
      readCount (readAndSendData size ec sendNo ifs) = k + 1 ∧
      (writes (readAndSendData size ec sendNo ifs)).length = k + 1 ∧
      sendCount (readAndSendData size ec sendNo ifs) = k + 1 := by
  intro k
  induction k with
  | zero =>
    intro ifs sendNo hsend hec
    by_cases h0 : (ifs.take size).length = 0
    · rw [readAndSendData_empty size ec sendNo ifs h0] at hsend
      simp [sendCount] at hsend
    · have hsize : 0 < size := by
        rcases Nat.eq_zero_or_pos size with h | h
        · subst h; simp at h0
        · exact h
      have hpos : 0 < ifs.length := by
        rcases Nat.eq_zero_or_pos ifs.length with h | h
        · rw [List.length_eq_zero.mp h] at h0; simp at h0
        · exact h
      by_cases hlt : ifs.length < size
      · rw [readAndSendData_short size ec sendNo ifs hpos hlt] at hsend
        simp [sendCount] at hsend
      · rw [readAndSendData_full size ec sendNo ifs hsize (Nat.le_of_not_lt hlt)]
        rw [Nat.add_zero] at hec
        simp [hec, readCount, writes, sendCount]
  | succ k ih =>
    intro ifs sendNo hsend hec
    by_cases h0 : (ifs.take size).length = 0
    · rw [readAndSendData_empty size ec sendNo ifs h0] at hsend
      simp [sendCount] at hsend
    · have hsize : 0 < size := by
        rcases Nat.eq_zero_or_pos size with h | h
        · subst h; simp at h0
        · exact h
      have hpos : 0 < ifs.length := by
        rcases Nat.eq_zero_or_pos ifs.length with h | h
        · rw [List.length_eq_zero.mp h] at h0; simp at h0
        · exact h
      by_cases hlt : ifs.length < size
      · rw [readAndSendData_short size ec sendNo ifs hpos hlt] at hsend
        simp [sendCount] at hsend
      · rw [readAndSendData_full size ec sendNo ifs hsize (Nat.le_of_not_lt hlt)] at hsend ⊢
        cases hfirst : ec sendNo
        · rw [hfirst] at hsend
          simp only [Bool.false_eq_true, if_false, sendCount] at hsend
          have hec' : ec (sendNo + 1 + k) = true := by
            rw [show sendNo + 1 + k = sendNo + (k + 1) by omega]; exact hec
          obtain ⟨hr, hw, hs⟩ := ih (ifs.drop size) (sendNo + 1) (by omega) hec'
          simp [readCount, writes, sendCount, hr, hw, hs]
        · rw [hfirst] at hsend
          simp [sendCount] at hsend

/-- C4: when the `k`-th send of a stream (k >= 1) takes place and completes with an
error, `readAndSendData` has made exactly k reads and k writes in total and sent k
times: nothing is read, written or sent after the failure, and the stream is not
retried. -/
theorem readAndSendData_stops_on_send_error (size : Nat) (ec : Nat → Bool)
    (file : List Nat) (k : Nat) (hk : 1 ≤ k)
    (hsent : k ≤ sendCount (readAndSendData size ec 0 file))
    (hfail : ec (k - 1) = true) :
    readCount (readAndSendData size ec 0 file) = k ∧
    (writes (readAndSendData size ec 0 file)).length = k ∧
    sendCount (readAndSendData size ec 0 file) = k := by
  obtain ⟨j, rfl⟩ : ∃ j, k = j + 1 := ⟨k - 1, by omega⟩
  exact readAndSendData_failed_send size ec j file 0 hsent (by simpa using hfail)

/-- The run used as witness of C4: five bytes, a buffer of two, the second send
fails. -/
theorem readAndSendData_second_send_fails :
    readAndSendData 2 (fun n => n == 1) 0 [1, 2, 3, 4, 5] =
      [Event.read 2, Event.write [1, 2], Event.send,
       Event.read 2, Event.write [3, 4], Event.send,
       Event.cerr "Connection interrupted"] := by
  rw [readAndSendData_full 2 _ 0 [1, 2, 3, 4, 5] (by decide) (by decide)]
  simp only [List.take, List.drop]
  rw [readAndSendData_full 2 _ 1 [3, 4, 5] (by decide) (by decide)]
  simp

/-- Witness of C4: five bytes, a buffer of two, the second send fails; two reads,
two writes and two sends happen. -/
theorem readAndSendData_stops_on_send_error_witness :
    readCount (readAndSendData 2 (fun n => n == 1) 0 [1, 2, 3, 4, 5]) = 2 ∧
    (writes (readAndSendData 2 (fun n => n == 1) 0 [1, 2, 3, 4, 5])).length = 2 ∧
    sendCount (readAndSendData 2 (fun n => n == 1) 0 [1, 2, 3, 4, 5]) = 2 :=
  readAndSendData_stops_on_send_error 2 (fun n => n == 1) [1, 2, 3, 4, 5] 2 (by decide)
    (by rw [readAndSendData_second_send_fails]; decide) (by decide)

/-! ## The `/getResult` handler: malformed requests -/

/-- C5: a `/getResult` request whose parsed query string has zero or more than one
parameter is answered with the heading followed by the usage message, which
contains "Usage: ?type={ json | image }" and no detection result; no collaborator
is called (no classifier load, no camera, no detector) and the classifier is left
as it was. -/
theorem getResult_GET_wrong_parameter_count {Mat : Type} (c : Collaborators Mat)
    (cascadeEmpty : Bool) (request : Request)
    (hsize : request.parse_query_string.length ≠ 1) :
    ∃ r : Result, getResult_GET c cascadeEmpty request = some r ∧
      r.body = "<h1>Face Detection Service</h1>" ++ "<p>Wrong parameter</p>" ++
        "<p>Usage: ?type=\x7b json | image \x7d</p>" ∧
      containsText r.body "Usage: ?type=\x7b json | image \x7d" ∧
      ¬ invokesCollaborator r.calls ∧
      r.calls = [] ∧
      r.cascadeEmpty = cascadeEmpty := by
  refine ⟨⟨"<h1>Face Detection Service</h1>" ++ "<p>Wrong parameter</p>" ++
    "<p>Usage: ?type=\x7b json | image \x7d</p>", [], cascadeEmpty⟩, ?_, rfl, ?_,
    fun h => h rfl, rfl, rfl⟩
  · unfold getResult_GET
    simp only [hsize, ne_eq, not_false_eq_true, if_true]
  · show containsText ("<h1>Face Detection Service</h1>" ++ "<p>Wrong parameter</p>" ++
      "<p>Usage: ?type=\x7b json | image \x7d</p>") "Usage: ?type=\x7b json | image \x7d"
    decide

/-- Witness of C5: the query `?type=json&x=1`, with the classifier not yet loaded. -/
theorem getResult_GET_wrong_parameter_count_witness :
    ∃ r : Result,
      getResult_GET (sampleCollaborators true [] "") true
        ⟨"/getResult", [("type", "json"), ("x", "1")]⟩ = some r ∧
      r.body = "<h1>Face Detection Service</h1>" ++ "<p>Wrong parameter</p>" ++
        "<p>Usage: ?type=\x7b json | image \x7d</p>" ∧
      containsText r.body "Usage: ?type=\x7b json | image \x7d" ∧
      ¬ invokesCollaborator r.calls ∧
      r.calls = [] ∧
      r.cascadeEmpty = true :=
  getResult_GET_wrong_parameter_count (sampleCollaborators true [] "") true
    ⟨"/getResult", [("type", "json"), ("x", "1")]⟩ (by decide)

/-- The text between two others occurs in their concatenation. -/
theorem containsText_middle (pre sub post : String) :
    containsText (pre ++ sub ++ post) sub := by
  unfold containsText
  rw [String.data_append, String.data_append]
  exact List.infix_append pre.data sub.data post.data

/-- C6 fails as stated: with the classifier not loaded and its load failing, the
request `?type=video` makes the handler call the classifier load, and the body is
the load error, without "Wrong value: video". -/
theorem getResult_GET_wrong_value_load_fails :
    getResult_GET (sampleCollaborators false [] "") true ⟨"/getResult", [("type", "video")]⟩ =
      some ⟨"<h1>Face Detection Service</h1><p>Error loading face cascade</p>",
        [Call.load "haarcascade_frontalface_default.xml"], true⟩ ∧
    ¬ containsText "<h1>Face Detection Service</h1><p>Error loading face cascade</p>"
      "Wrong value: video" ∧
    invokesCollaborator [Call.load "haarcascade_frontalface_default.xml"] := by
  refine ⟨by decide, by decide, by decide⟩

/-- C6, as the code has it: for a request with the single parameter `type=v`, `v`
neither "json" nor "image", the only collaborator call is the load of the
classifier, made exactly when the classifier is empty (so the camera is not opened
and the detector is not run); when the classifier is already loaded or its load
succeeds the body contains "Wrong value: v", and when the load fails the body is
the heading followed by the load error. -/
theorem getResult_GET_wrong_value {Mat : Type} (c : Collaborators Mat)
    (cascadeEmpty : Bool) (request : Request) (k v : String)
    (hquery : request.parse_query_string = [(k, v)])
    (hkey : c.key_eq k "type" = true) (hjson : v ≠ "json") (himage : v ≠ "image") :
    ∃ r : Result, getResult_GET c cascadeEmpty request = some r ∧
      r.calls = (if cascadeEmpty then [Call.load "haarcascade_frontalface_default.xml"]
        else []) ∧
      ((cascadeEmpty = false ∨ c.load "haarcascade_frontalface_default.xml" = true) →
        r.body = "<h1>Face Detection Service</h1>" ++ "<p>Wrong value: " ++ v ++ "</p>" ∧
        containsText r.body ("Wrong value: " ++ v)) ∧
      ((cascadeEmpty = true ∧ c.load "haarcascade_frontalface_default.xml" = false) →
        r.body = "<h1>Face Detection Service</h1>" ++ "<p>Error loading face cascade</p>") := by
  have hfind : find c.key_eq [(k, v)] "type" = some (k, v) := by
    simp [find, hkey]
  have hcontains : containsText
      ("<h1>Face Detection Service</h1>" ++ "<p>Wrong value: " ++ v ++ "</p>")
      ("Wrong value: " ++ v) := by
    have h := containsText_middle "<h1>Face Detection Service</h1><p>" ("Wrong value: " ++ v)
      "</p>"
    have heq : "<h1>Face Detection Service</h1><p>" ++ ("Wrong value: " ++ v) ++ "</p>" =
        "<h1>Face Detection Service</h1>" ++ "<p>Wrong value: " ++ v ++ "</p>" := by
      rw [← String.append_assoc]
      rfl
    rwa [heq] at h
  cases hempty : cascadeEmpty
  · refine ⟨⟨"<h1>Face Detection Service</h1>" ++ "<p>Wrong value: " ++ v ++ "</p>", [],
      false⟩, ?_, by simp, fun _ => ⟨rfl, hcontains⟩, fun h => by simp at h⟩
    simp [getResult_GET, hquery, hfind, hjson, himage]
  · cases hload : c.load "haarcascade_frontalface_default.xml"
    · refine ⟨⟨"<h1>Face Detection Service</h1>" ++ "<p>Error loading face cascade</p>",
        [Call.load "haarcascade_frontalface_default.xml"], true⟩, ?_, by simp,
        fun h => by simp at h, fun _ => rfl⟩
      simp [getResult_GET, hquery, hload]
    · refine ⟨⟨"<h1>Face Detection Service</h1>" ++ "<p>Wrong value: " ++ v ++ "</p>",
        [Call.load "haarcascade_frontalface_default.xml"], false⟩, ?_, by simp,
        fun _ => ⟨rfl, hcontains⟩, fun h => by simp at h⟩
      simp [getResult_GET, hquery, hfind, hjson, himage, hload]

/-- Witness of C6 as the code has it: `?type=video` with the classifier loaded. -/
theorem getResult_GET_wrong_value_witness :
    ∃ r : Result,
      getResult_GET (sampleCollaborators true [] "") false
        ⟨"/getResult", [("type", "video")]⟩ = some r ∧
      r.calls = (if false then [Call.load "haarcascade_frontalface_default.xml"] else []) ∧
      ((false = false ∨ (sampleCollaborators true [] "").load
          "haarcascade_frontalface_default.xml" = true) →
        r.body = "<h1>Face Detection Service</h1>" ++ "<p>Wrong value: " ++ "video" ++ "</p>" ∧
        containsText r.body ("Wrong value: " ++ "video")) ∧
      ((false = true ∧ (sampleCollaborators true [] "").load
          "haarcascade_frontalface_default.xml" = false) →
        r.body = "<h1>Face Detection Service</h1>" ++ "<p>Error loading face cascade</p>") :=
  getResult_GET_wrong_value (sampleCollaborators true [] "") false
    ⟨"/getResult", [("type", "video")]⟩ "type" "video" rfl rfl (by decide) (by decide)

/-- C7 fails on the code: for the query `?foo=json` the handler passes the size check
and, with the classifier loaded or loading, reaches `*getParams.find("type")` with
`find` at `end()`: undefined behaviour, not the usage message. -/
theorem getResult_GET_missing_type_undefined :
    find (fun a b => a == b) [("foo", "json")] "type" = none ∧
    getResult_GET (sampleCollaborators true [] "") false ⟨"/getResult", [("foo", "json")]⟩ =
      none ∧
    getResult_GET (sampleCollaborators true [] "") true ⟨"/getResult", [("foo", "json")]⟩ =
      none := by
  refine ⟨by decide, by decide, by decide⟩

/-! ## The JSON strategy -/

/-- The entry `detectAndGetCoords` builds for one rectangle: the four fields, in the
order they are put. -/
theorem jsonFace_eq (face : Rect) :
    jsonFace face = ptree.node ""
      [("x", ptree.node (toString face.x) []), ("y", ptree.node (toString face.y) []),
       ("width", ptree.node (toString face.width) []),
       ("height", ptree.node (toString face.height) [])] := by
  simp [jsonFace, ptree.put, ptree.putValueAt, ptree.empty]

/-- Pushing one entry per face onto a tree appends them in order. -/
theorem foldl_push_back (faces : List Rect) :
    ∀ (d : String) (cs : List (String × ptree)),
      faces.foldl
        (fun (facesJson : ptree) (face : Rect) => facesJson.push_back ("", jsonFace face))
        (ptree.node d cs) =
      ptree.node d (cs ++ faces.map (fun face => ("", jsonFace face))) := by
  induction faces with
  | nil => intro d cs; simp
  | cons face rest ih =>
    intro d cs
    have hpush : (ptree.node d cs).push_back ("", jsonFace face) =
        ptree.node d (cs ++ [("", jsonFace face)]) := rfl
    rw [List.foldl_cons, hpush, ih]
    simp

/-- The tree built from the detected faces. -/
theorem facesTree_eq (faces : List Rect) :
    facesTree faces = ptree.node ""
      [("faces", ptree.node "" (faces.map (fun face => ("", ptree.node ""
        [("x", ptree.node (toString face.x) []), ("y", ptree.node (toString face.y) []),
         ("width", ptree.node (toString face.width) []),
         ("height", ptree.node (toString face.height) [])]))))] := by
  unfold facesTree
  simp only [ptree.empty]
  rw [foldl_push_back faces "" []]
  simp [ptree.add_child, jsonFace_eq]

/-- C9: the tree `detectAndGetCoords` serialises has the single top-level key "faces";
its children are, in detector output order, one entry per rectangle, the entry of a
rectangle holding exactly the fields x, y, width, height with that rectangle's
values (as their decimal text). There are as many entries as rectangles, and
`[(1,2,3,4)]` gives the one entry x=1, y=2, width=3, height=4. -/
theorem detectAndGetCoords_tree {Mat : Type} (c : Collaborators Mat) (image : Mat) :
    (detectAndGetCoords c image).1 = c.write_json (ptree.node ""
      [("faces", ptree.node ""
        ((c.detectMultiScale (c.equalizeHist (c.cvtColor image))).map
          (fun face => ("", ptree.node ""
            [("x", ptree.node (toString face.x) []), ("y", ptree.node (toString face.y) []),
             ("width", ptree.node (toString face.width) []),
             ("height", ptree.node (toString face.height) [])]))))]) ∧
    (facesTree (c.detectMultiScale (c.equalizeHist (c.cvtColor image)))).children.map
      Prod.fst = ["faces"] ∧
    ((facesTree (c.detectMultiScale (c.equalizeHist (c.cvtColor image)))).children.map
      (fun entry => entry.2.children.length)) =
      [(c.detectMultiScale (c.equalizeHist (c.cvtColor image))).length] ∧
    facesTree [⟨1, 2, 3, 4⟩] = ptree.node ""
      [("faces", ptree.node "" [("", ptree.node ""
        [("x", ptree.node "1" []), ("y", ptree.node "2" []),
         ("width", ptree.node "3" []), ("height", ptree.node "4" [])])])] := by
  refine ⟨?_, ?_, ?_, ?_⟩
  · simp only [detectAndGetCoords]
    rw [facesTree_eq]
  · rw [facesTree_eq]
    rfl
  · rw [facesTree_eq]
    simp [ptree.children]
  · rw [facesTree_eq]
    rfl

/-- The body of a `?type=json` response without detection: for a request on which
the classifier is loaded or loads, the camera yields a frame and the detector
returns no rectangle, the body is the heading of the service followed by what the
serialiser writes for the tree whose single key "faces" has no children. -/
theorem getResult_GET_json_no_faces {Mat : Type} (c : Collaborators Mat)
    (cascadeEmpty : Bool) (request : Request) (k : String) (image : Mat)
    (hquery : request.parse_query_string = [(k, "json")])
    (hkey : c.key_eq k "type" = true)
    (hload : cascadeEmpty = false ∨ c.load "haarcascade_frontalface_default.xml" = true)
    (hopen : c.isOpened = true) (hread : c.read = some image)
    (hnone : c.detectMultiScale (c.equalizeHist (c.cvtColor image)) = []) :
    (getResult_GET c cascadeEmpty request).map Result.body =
      some ("<h1>Face Detection Service</h1>" ++
        c.write_json (ptree.node "" [("faces", ptree.node "" [])])) := by
  have hfind : find c.key_eq [(k, "json")] "type" = some (k, "json") := by
    simp [find, hkey]
  have htree : facesTree [] = ptree.node "" [("faces", ptree.node "" [])] := by
    rw [facesTree_eq]; rfl
  have hgate : (cascadeEmpty && !c.load "haarcascade_frontalface_default.xml") = false := by
    rcases hload with h | h <;> simp [h]
  simp [getResult_GET, hquery, hfind, hgate, processJsonParam, hopen, hread,
    detectAndGetCoords, hnone, htree, caught]

/-- A body that starts with the heading of the service is not the text
`{"faces":[]}`. -/
theorem heading_append_ne (s : String) :
    "<h1>Face Detection Service</h1>" ++ s ≠ "\x7b\"faces\":[]\x7d" := by
  intro h
  have hdata := congrArg String.data h
  rw [String.data_append] at hdata
  have hhead := congrArg List.head? hdata
  have hleft : ("<h1>Face Detection Service</h1>".data ++ s.data).head? =
      some (Char.ofNat 60) := rfl
  rw [hleft] at hhead
  revert hhead
  decide

/-- C8 fails on the code: for a `?type=json` request on which the classifier loads,
the camera yields a frame and the detector returns no rectangle, the body is not
`{"faces":[]}`. It is the heading of the service followed by the text the JSON
writer produces for the tree whose key "faces" has no children, and that text gives
"faces" the empty string as value, not the empty array: the body is
`<h1>Face Detection Service</h1>`, then an object with the one member `"faces": ""`.
Whatever the serialiser writes, the body starts with the heading and so is never
exactly `{"faces":[]}`. -/
theorem getResult_GET_json_no_faces_body :
    getResult_GET (serialisingCollaborators [] boost_json.write_json) true
        ⟨"/getResult", [("type", "json")]⟩ =
      some ⟨"<h1>Face Detection Service</h1>\x7b\n    \"faces\": \"\"\n\x7d\n",
        [Call.load "haarcascade_frontalface_default.xml", Call.videoCapture 0,
         Call.captureRead, Call.detectMultiScale], false⟩ ∧
    boost_json.write_json (facesTree []) = "\x7b\n    \"faces\": \"\"\n\x7d\n" ∧
    "<h1>Face Detection Service</h1>\x7b\n    \"faces\": \"\"\n\x7d\n" ≠
      "\x7b\"faces\":[]\x7d" ∧
    ¬ containsText "<h1>Face Detection Service</h1>\x7b\n    \"faces\": \"\"\n\x7d\n" "[]" ∧
    (∀ w : ptree → String,
      (getResult_GET (serialisingCollaborators [] w) true
        ⟨"/getResult", [("type", "json")]⟩).map Result.body =
        some ("<h1>Face Detection Service</h1>" ++ w (facesTree []))) ∧
    (∀ w : ptree → String,
      (getResult_GET (serialisingCollaborators [] w) true
        ⟨"/getResult", [("type", "json")]⟩).map Result.body ≠
        some "\x7b\"faces\":[]\x7d") := by
  have hbody : ∀ w : ptree → String,
      (getResult_GET (serialisingCollaborators [] w) true
        ⟨"/getResult", [("type", "json")]⟩).map Result.body =
        some ("<h1>Face Detection Service</h1>" ++ w (facesTree [])) := by
    intro w
    have htree : facesTree [] = ptree.node "" [("faces", ptree.node "" [])] := by
      rw [facesTree_eq]; rfl
    rw [htree]
    exact getResult_GET_json_no_faces (serialisingCollaborators [] w) true
      ⟨"/getResult", [("type", "json")]⟩ "type" () rfl rfl (Or.inr rfl) rfl rfl rfl
  refine ⟨by decide, by decide, by decide, by decide, hbody, ?_⟩
  intro w hw
  rw [hbody w] at hw
  exact heading_append_ne _ (Option.some.inj hw)

/-! ## The image strategy -/

/-- The drawing loop records one call per face, in order, after the calls made
before it. -/
theorem drawFaces_foldl_calls {Mat : Type} (c : Collaborators Mat) (faces : List Rect) :
    ∀ (image : Mat) (calls : List Call),
      (faces.foldl
        (fun (acc : Mat × List Call) (face : Rect) =>
          (c.rectangle acc.1 (Rect.mk face.x face.width face.y face.height),
            acc.2 ++ [Call.rectangle (Rect.mk face.x face.width face.y face.height)]))
        (image, calls)).2 =
      calls ++ (faces.map
        (fun face => Rect.mk face.x face.width face.y face.height)).map Call.rectangle := by
  induction faces with
  | nil => intro image calls; simp
  | cons face rest ih =>
    intro image calls
    rw [List.foldl_cons, ih]
    simp

/-- The calls of the drawing loop. -/
theorem drawFaces_calls {Mat : Type} (c : Collaborators Mat) (image : Mat)
    (faces : List Rect) :
    (drawFaces c image faces).2 = (faces.map
      (fun face => Rect.mk face.x face.width face.y face.height)).map Call.rectangle := by
  unfold drawFaces
  rw [drawFaces_foldl_calls c faces image []]
  rfl

/-- The rectangles drawn among calls that are all drawing calls. -/
theorem drawnRects_map_rectangle (rects : List Rect) (rest : List Call)  :
    drawnRects (rects.map Call.rectangle ++ rest) = rects ++ drawnRects rest := by
  induction rects with
  | nil => simp
  | cons r rs ih => simp [drawnRects, ih]

/-- C10 fails on the code: `detectAndSave` draws one outline per detected rectangle,
in order, but the rectangle it passes for a detection `(x, y, width, height)` is
`Rect(x, width, y, height)`: for the detection `(1, 2, 3, 4)` it outlines the
rectangle with x=1, y=3, width=2, height=4. -/
theorem detectAndSave_draws_swapped {Mat : Type} (c : Collaborators Mat) (image : Mat) :
    drawnRects (detectAndSave c image).2 =
      (c.detectMultiScale (c.equalizeHist (c.cvtColor image))).map
        (fun face => Rect.mk face.x face.width face.y face.height) ∧
    drawnRects (detectAndSave (sampleCollaborators true [⟨1, 2, 3, 4⟩] "") ()).2 =
      [⟨1, 3, 2, 4⟩] ∧
    ([⟨1, 3, 2, 4⟩] : List Rect) ≠ [⟨1, 2, 3, 4⟩] := by
  refine ⟨?_, by decide, by decide⟩
  have hrest : drawnRects [Call.imwrite "web\\image.jpg"] = [] := rfl
  simp only [detectAndSave]
  split <;> simp only [drawFaces_calls, drawnRects, List.cons_append] <;>
    exact (drawnRects_map_rectangle _ _).trans (by rw [hrest, List.append_nil])

end FaceDetectionService
